import Mathlib

/-!
# Verification of the dashTerm resilient metrics-refresh engine

Shallow embedding of the core of the dashTerm repository:

* `SystemInfo` (src/lib/system-info.js, shipped as src/unnamed/part_003):
  a TTL cache over a single JS `Map`, plus the four metric collectors
  (CPU / memory / disk / network) that consult and populate it.
* `ErrorHandler` (src/lib/error-handler.js): error normalisation,
  severity dispatch, recovery actions, the bounded error log.
* `CompleteDashboard.updateDisplay` / `startUpdateLoop` /
  `updatePerformanceStats` (src/unnamed/part_000): the refresh cycle,
  the interval tick guard and the running duration average.

Timestamps (`Date.now()`) are modelled as natural-number milliseconds.
Metric numbers are modelled as exact rationals; the JS `Math.round`
on a non-negative rational is `round` (round half up).  JS `null` is
modelled as `Option.none`.  Code that only talks to the terminal UI or
to the logger sink (widget writes, `logger.*` calls, status messages)
has no bearing on the claims and is omitted from the embedding; every
state mutation performed by the embedded functions is kept.
-/

/-- JS `Math.round` on a rational: round half away from zero on the
positives, i.e. `⌊x + 1/2⌋`; this coincides with Mathlib's `round`. -/
def jsRound (q : ℚ) : ℤ := round q

/-- `Math.round(x * 100) / 100`: round to two decimal places,
used throughout src/lib/system-info.js. -/
def round2 (q : ℚ) : ℚ := (jsRound (q * 100) : ℚ) / 100

/-! ## MetricCache (SystemInfo cache, src/unnamed/part_003 lines 183-227)

The JS `Map` holding `{ data, timestamp }` records keyed by the source
name is modelled as an association list (JS maps preserve insertion
order; `set` of an existing key updates in place, `delete` removes). -/

/-- One cache slot: `{ data, timestamp }` as stored by `setCache`. -/
structure CacheEntry (V : Type) where
  data : V
  timestamp : ℕ
  deriving Repr, DecidableEq

/-- The `this.cache` JS `Map`, as an insertion-ordered association list. -/
abbrev CacheMap (V : Type) : Type := List (String × CacheEntry V)

/-- `Map.get`. -/
def CacheMap.get? {V : Type} (c : CacheMap V) (key : String) : Option (CacheEntry V) :=
  (List.find? (fun p => p.1 == key) c).map (·.2)

/-- `Map.set`: replace in place if the key is present, else append. -/
def CacheMap.set {V : Type} (c : CacheMap V) (key : String) (e : CacheEntry V) : CacheMap V :=
  if List.any c (fun p => p.1 == key) then
    List.map (fun p => if p.1 == key then (key, e) else p) c
  else
    c ++ [(key, e)]

/-- `Map.delete`. -/
def CacheMap.del {V : Type} (c : CacheMap V) (key : String) : CacheMap V :=
  List.filter (fun p => !(p.1 == key)) c

/-- `Map.size`. -/
def CacheMap.size {V : Type} (c : CacheMap V) : ℕ := List.length c

/-- `this.cacheTimeout = 2000` (system-info.js constructor): the TTL in ms. -/
def cacheTimeout : ℕ := 2000

/-- `SystemInfo.isInCache(key)`: valid iff `now - timestamp < cacheTimeout`;
an expired entry is deleted as a side effect and reported missing.
Returns the boolean together with the updated map. -/
def isInCache {V : Type} (c : CacheMap V) (key : String) (now : ℕ) :
    Bool × CacheMap V :=
  match c.get? key with
  | none => (false, c)
  | some cached =>
    if now - cached.timestamp < cacheTimeout then (true, c)
    else (false, c.del key)

/-- The cache-read pattern used by every collector:
`if (this.isInCache(key)) return this.cache.get(key).data` —
the reading served from cache (or `none` on a miss), plus the map
after the lazy eviction done by `isInCache`. -/
def cacheRead {V : Type} (c : CacheMap V) (key : String) (now : ℕ) :
    Option V × CacheMap V :=
  match isInCache c key now with
  | (true, c') => ((c'.get? key).map (·.data), c')
  | (false, c') => (none, c')

/-- `SystemInfo.setCache(key, data)`: store with `timestamp: Date.now()`. -/
def setCache {V : Type} (c : CacheMap V) (key : String) (data : V) (now : ℕ) :
    CacheMap V :=
  c.set key ⟨data, now⟩

/-- `SystemInfo.clearExpiredCache()`: delete every entry with
`now - timestamp >= cacheTimeout`. -/
def clearExpiredCache {V : Type} (c : CacheMap V) (now : ℕ) : CacheMap V :=
  List.filter (fun p => now - p.2.timestamp < cacheTimeout) c

/-- `SystemInfo.getCacheStats()`. -/
structure CacheStats where
  size : ℕ
  keys : List String
  timeout : ℕ
  deriving Repr, DecidableEq

/-- `SystemInfo.getCacheStats()`: `{ size, keys, timeout }`. -/
def getCacheStats {V : Type} (c : CacheMap V) : CacheStats :=
  { size := c.size, keys := List.map (·.1) c, timeout := cacheTimeout }

/-! ## Metric readings (src/unnamed/part_003, collectors)

Raw OS query results (`systeminformation` payloads) and the transformed
readings the collectors produce.  Numbers are exact rationals. -/

/-- `si.currentLoad()` payload: overall load plus per-core loads
(`cpus[i].load`, modelled as the list of core loads). -/
structure CpuLoadRaw where
  currentLoad : ℚ
  cpus : List ℚ
  deriving Repr, DecidableEq

/-- `si.cpu()` payload: the fields the collector reads. -/
structure CpuSpecRaw where
  model : String
  speed : ℚ
  deriving Repr, DecidableEq

/-- `si.mem()` payload. -/
structure MemRaw where
  total : ℚ
  used : ℚ
  free : ℚ
  deriving Repr, DecidableEq

/-- One element of the `si.fsSize()` payload. -/
structure DiskRaw where
  fs : String
  size : ℚ
  used : ℚ
  available : ℚ
  use : ℚ
  mount : String
  deriving Repr, DecidableEq

/-- One element of the `si.networkStats()` payload
(`iface, rx_bytes, tx_bytes, rx_sec, tx_sec`). -/
structure NetRaw where
  iface : String
  rxBytes : ℚ
  txBytes : ℚ
  rxSec : ℚ
  txSec : ℚ
  deriving Repr, DecidableEq

/-- The CPU reading built by `getCPUInfo`; `coreUsage` is the list of
`{ core: index, load }` pairs. -/
structure CPUReading where
  usage : ℚ
  cores : ℕ
  model : String
  speed : ℚ
  coreUsage : List (ℕ × ℚ)
  deriving Repr, DecidableEq

/-- The memory reading built by `getMemoryInfo`. -/
structure MemoryReading where
  total : ℚ
  used : ℚ
  free : ℚ
  usagePercent : ℚ
  deriving Repr, DecidableEq

/-- One per-mount disk reading built by `getDiskInfo`
(the JS field `filesystem`). -/
structure DiskInfo where
  filesystem : String
  size : ℚ
  used : ℚ
  available : ℚ
  usagePercent : ℚ
  mount : String
  deriving Repr, DecidableEq

/-- One per-interface network reading built by `getNetworkInfo`
(the JS field named `interface` is called `iface` here). -/
structure NetInfo where
  iface : String
  rxMB : ℚ
  txMB : ℚ
  rxRate : ℚ
  txRate : ℚ
  deriving Repr, DecidableEq

/-- A value stored in the single `SystemInfo` cache `Map`: the four
collectors store their own reading shapes under their own keys. -/
inductive MetricData : Type where
  | cpu (r : CPUReading)
  | memory (r : MemoryReading)
  | disk (l : List DiskInfo)
  | network (l : List NetInfo)
  deriving Repr, DecidableEq

/-- Project a cached value back to a CPU reading (the `"cpu"` key only
ever holds `MetricData.cpu` data; other variants are unreachable). -/
def MetricData.asCpu : MetricData → Option CPUReading
  | .cpu r => some r
  | _ => none

/-- Project a cached value back to a memory reading. -/
def MetricData.asMemory : MetricData → Option MemoryReading
  | .memory r => some r
  | _ => none

/-- Project a cached value back to a disk reading list. -/
def MetricData.asDisk : MetricData → Option (List DiskInfo)
  | .disk l => some l
  | _ => none

/-- Project a cached value back to a network reading list. -/
def MetricData.asNetwork : MetricData → Option (List NetInfo)
  | .network l => some l
  | _ => none

/-- The safe default CPU reading returned by `getCPUInfo` on failure. -/
def defaultCPUReading : CPUReading :=
  { usage := 0, cores := 0, model := "Unknown", speed := 0, coreUsage := [] }

/-- The safe default memory reading returned by `getMemoryInfo` on failure. -/
def defaultMemoryReading : MemoryReading :=
  { total := 0, used := 0, free := 0, usagePercent := 0 }

/-- `bytesToGB` (getMemoryInfo helper, also inlined by `getDiskInfo`):
`Math.round((bytes / 1024 / 1024 / 1024) * 100) / 100`. -/
def bytesToGB (bytes : ℚ) : ℚ := round2 (bytes / 1024 / 1024 / 1024)

/-- The successful-path transform of `getCPUInfo` (part_003 lines 33-45). -/
def cpuTransform (load : CpuLoadRaw) (info : CpuSpecRaw) : CPUReading :=
  { usage := round2 load.currentLoad
    cores := load.cpus.length
    model := info.model
    speed := info.speed
    coreUsage := List.map (fun p => (p.1, round2 p.2)) load.cpus.enum }

/-- The successful-path transform of `getMemoryInfo` (lines 86-93).
(`used / total` on `total = 0` is the rational convention `0`; the JS
code would produce NaN there, a case no claim exercises.) -/
def memTransform (m : MemRaw) : MemoryReading :=
  { total := bytesToGB m.total
    used := bytesToGB m.used
    free := bytesToGB m.free
    usagePercent := round2 (m.used / m.total * 100) }

/-- The successful-path transform of `getDiskInfo` (lines 124-134):
keep only disks with `size > 0`, then convert units. -/
def diskTransform (disks : List DiskRaw) : List DiskInfo :=
  List.map
    (fun d =>
      { filesystem := d.fs
        size := bytesToGB d.size
        used := bytesToGB d.used
        available := bytesToGB d.available
        usagePercent := round2 d.use
        mount := d.mount })
    (List.filter (fun d => decide (0 < d.size)) disks)

/-- The successful-path transform of `getNetworkInfo` (lines 160-170). -/
def netTransform (nets : List NetRaw) : List NetInfo :=
  List.map
    (fun n =>
      { iface := n.iface
        rxMB := round2 (n.rxBytes / 1024 / 1024)
        txMB := round2 (n.txBytes / 1024 / 1024)
        rxRate := round2 (n.rxSec / 1024)
        txRate := round2 (n.txSec / 1024) })
    nets

/-! ## Metric collectors (part_003 lines 13-180)

Each `getXInfo` consults the cache, and otherwise transforms its OS
query result; an OS query failure is caught inside the collector, which
then returns a safe default reading.  The OS query outcome is passed in
as an `Except String raw` environment value (the `String` being the
thrown error's message).  The collectors' own return type is wrapped in
`Except String` to model that a JS async function can reject: every
branch below is `Except.ok`, which is exactly the point of claim C4. -/

/-- `SystemInfo.getCPUInfo()`: cached read, else transform the
`si.currentLoad()` / `si.cpu()` results; on query failure return the
zeroed default reading.  Returns the reading and the updated cache. -/
def getCPUInfo (q : Except String (CpuLoadRaw × CpuSpecRaw))
    (cache : CacheMap MetricData) (now : ℕ) :
    Except String (CPUReading × CacheMap MetricData) :=
  match cacheRead cache "cpu" now with
  | (some d, c') => Except.ok (d.asCpu.getD defaultCPUReading, c')
  | (none, c') =>
    match q with
    | Except.ok (load, info) =>
      let result := cpuTransform load info
      Except.ok (result, setCache c' "cpu" (MetricData.cpu result) now)
    | Except.error _ => Except.ok (defaultCPUReading, c')

/-- `SystemInfo.getMemoryInfo()`. -/
def getMemoryInfo (q : Except String MemRaw)
    (cache : CacheMap MetricData) (now : ℕ) :
    Except String (MemoryReading × CacheMap MetricData) :=
  match cacheRead cache "memory" now with
  | (some d, c') => Except.ok (d.asMemory.getD defaultMemoryReading, c')
  | (none, c') =>
    match q with
    | Except.ok m =>
      let result := memTransform m
      Except.ok (result, setCache c' "memory" (MetricData.memory result) now)
    | Except.error _ => Except.ok (defaultMemoryReading, c')

/-- `SystemInfo.getDiskInfo()`: on query failure returns the empty
list, and a fileless host (`si.fsSize()` returning `[]`) yields the
empty reading through the normal path. -/
def getDiskInfo (q : Except String (List DiskRaw))
    (cache : CacheMap MetricData) (now : ℕ) :
    Except String (List DiskInfo × CacheMap MetricData) :=
  match cacheRead cache "disk" now with
  | (some d, c') => Except.ok (d.asDisk.getD [], c')
  | (none, c') =>
    match q with
    | Except.ok disks =>
      let result := diskTransform disks
      Except.ok (result, setCache c' "disk" (MetricData.disk result) now)
    | Except.error _ => Except.ok ([], c')

/-- `SystemInfo.getNetworkInfo()`. -/
def getNetworkInfo (q : Except String (List NetRaw))
    (cache : CacheMap MetricData) (now : ℕ) :
    Except String (List NetInfo × CacheMap MetricData) :=
  match cacheRead cache "network" now with
  | (some d, c') => Except.ok (d.asNetwork.getD [], c')
  | (none, c') =>
    match q with
    | Except.ok nets =>
      let result := netTransform nets
      Except.ok (result, setCache c' "network" (MetricData.network result) now)
    | Except.error _ => Except.ok ([], c')

/-! ## ErrorHandler (src/lib/error-handler.js)

`ErrorTypes`, `ErrorSeverity`, `DashboardError` and the handler's
state mutations on the dashboard.  `console`/`logger` output, status
messages and modal dialogs are sinks and are not part of the state. -/

/-- `ErrorTypes` (error-handler.js lines 5-12). -/
inductive ErrType : Type where
  | system
  | network
  | data
  | ui
  | performance
  | user
  deriving Repr, DecidableEq

/-- `ErrorSeverity` (lines 14-19). -/
inductive Severity : Type where
  | low
  | medium
  | high
  | critical
  deriving Repr, DecidableEq

/-- `DashboardError` (lines 21-33): message, type, severity, details and
the construction timestamp.  `details` is collapsed to one string. -/
structure DashboardError where
  message : String
  type : ErrType
  severity : Severity
  details : String
  timestamp : ℕ
  deriving Repr, DecidableEq

/-- An arbitrary JS error value reaching `handleError`: either already a
`DashboardError` (an `instanceof DashboardError` hit), or a plain error
carrying a name, a message, an optional `code` property, and whether it
is an `instanceof SyntaxError`. -/
inductive JsErr : Type where
  | dash (e : DashboardError)
  | plain (name : String) (message : String) (code : Option String) (isSyntax : Bool)
  deriving Repr, DecidableEq

/-- `ErrorHandler.normalizeError(error)` (lines 115-141): an existing
`DashboardError` is returned unchanged; otherwise classify by `code`
(`ENOENT`/`EACCES` then `ENOTFOUND`/`ECONNREFUSED`), then by
`instanceof SyntaxError`, defaulting to SYSTEM/MEDIUM, and wrap in a
fresh `DashboardError` (constructed at `now`, original name kept in
`details`, empty message replaced by the `"Unknown error"` fallback). -/
def normalizeError (err : JsErr) (now : ℕ) : DashboardError :=
  match err with
  | .dash e => e
  | .plain name msg code isSyntax =>
    let cls : ErrType × Severity :=
      if code = some "ENOENT" ∨ code = some "EACCES" then
        (ErrType.system, Severity.high)
      else if code = some "ENOTFOUND" ∨ code = some "ECONNREFUSED" then
        (ErrType.network, Severity.medium)
      else if isSyntax then
        (ErrType.data, Severity.medium)
      else
        (ErrType.system, Severity.medium)
    { message := if msg = "" then "Unknown error" else msg
      type := cls.1
      severity := cls.2
      details := name
      timestamp := now }

/-- One entry of `this.errorLog` as pushed by `logError` (lines 283-290);
the raw `stack` string is omitted. -/
structure ErrorRecord where
  timestamp : ℕ
  type : ErrType
  severity : Severity
  message : String
  details : String
  deriving Repr, DecidableEq

/-- `this.maxLogSize = 100` (constructor, line 54). -/
def maxLogSize : ℕ := 100

/-- The record `logError` pushes for an error (lines 283-290). -/
def toErrorRecord (e : DashboardError) : ErrorRecord :=
  { timestamp := e.timestamp, type := e.type, severity := e.severity,
    message := e.message, details := e.details }

/-- `ErrorHandler.logError(error)` (lines 281-296): push a record built
from the error, then `shift()` the oldest entry off when the log
exceeds `maxLogSize`. -/
def logError (log : List ErrorRecord) (e : DashboardError) : List ErrorRecord :=
  let log' := log ++ [toErrorRecord e]
  if maxLogSize < log'.length then log'.drop 1 else log'

/-- The dashboard + handler state mutated by the embedded operations:
`CompleteDashboard`'s flags and timer (part_000 constructor), the
`SystemInfo` cache, and the `ErrorHandler`'s log and statistics.
`updateInterval` is `none` when no timer is armed and `some p` for a
timer armed with period `p` ms. -/
structure DashState where
  degradedMode : Bool
  loggingEnabled : Bool
  isRunning : Bool
  updateInterval : Option ℕ
  cache : CacheMap MetricData
  errorLog : List ErrorRecord
  errorCounts : List ((ErrType × Severity) × ℕ)
  lastErrors : List (ErrType × DashboardError)
  deriving Repr, DecidableEq

/-- `ErrorHandler.temporarilyReduceUpdateFrequency()` (lines 261-279):
when a timer is armed, clear it and re-arm at the hardcoded 4000 ms
("4 seconds instead of 2"); otherwise do nothing. -/
def temporarilyReduceUpdateFrequency (st : DashState) : DashState :=
  match st.updateInterval with
  | none => st
  | some _ => { st with updateInterval := some 4000 }

/-- `ErrorHandler.enterDegradedMode(error)` (lines 246-259): set
`degradedMode`, reduce the update frequency, and disable
`loggingEnabled`. -/
def enterDegradedMode (st : DashState) : DashState :=
  let st1 := { st with degradedMode := true }
  let st2 := temporarilyReduceUpdateFrequency st1
  { st2 with loggingEnabled := false }

/-- `ErrorHandler.recoverFromSystemError(error)` (lines 216-226):
`systemInfo.cache.clear()` then reduce the update frequency. -/
def recoverFromSystemError (st : DashState) : DashState :=
  temporarilyReduceUpdateFrequency { st with cache := [] }

/-- `ErrorHandler.recoverFromDataError(error)` (lines 228-236):
`systemInfo.cache.clear()`. -/
def recoverFromDataError (st : DashState) : DashState :=
  { st with cache := [] }

/-- `ErrorHandler.recoverFromNetworkError(error)` (lines 238-244):
log-only, no state change. -/
def recoverFromNetworkError (st : DashState) : DashState := st

/-- `ErrorHandler.attemptRecovery(error)` (lines 200-214). -/
def attemptRecovery (st : DashState) (e : DashboardError) : DashState :=
  match e.type with
  | ErrType.system => recoverFromSystemError st
  | ErrType.data => recoverFromDataError st
  | ErrType.network => recoverFromNetworkError st
  | _ => st

/-- `ErrorHandler.handleLowSeverityError(error)` (lines 143-150):
warn + transient notice only; no state change. -/
def handleLowSeverityError (st : DashState) (_e : DashboardError) : DashState := st

/-- `ErrorHandler.handleMediumSeverityError(error)` (lines 152-162):
notice, then `attemptRecovery`. -/
def handleMediumSeverityError (st : DashState) (e : DashboardError) : DashState :=
  attemptRecovery st e

/-- `ErrorHandler.handleHighSeverityError(error)` (lines 164-177):
`enterDegradedMode`, then a blocking modal notice (a sink). -/
def handleHighSeverityError (st : DashState) (_e : DashboardError) : DashState :=
  enterDegradedMode st

/-- `ErrorHandler.handleCriticalError(title, error)` (lines 179-198):
flush diagnostics to the logger and schedule `process.exit(1)`; no
dashboard-state mutation before termination. -/
def handleCriticalError (st : DashState) (_e : DashboardError) : DashState := st

/-- Bump the `(type, severity)` counter, JS-`Map.set` style (replace in
place if present, else append with count 1). -/
def bumpErrorCount (l : List ((ErrType × Severity) × ℕ))
    (k : ErrType × Severity) : List ((ErrType × Severity) × ℕ) :=
  if List.any l (fun p => p.1 = k) then
    List.map (fun p => if p.1 = k then (k, p.2 + 1) else p) l
  else
    l ++ [(k, 1)]

/-- JS-`Map.set` for `lastErrors`. -/
def setLastError (l : List (ErrType × DashboardError)) (t : ErrType)
    (e : DashboardError) : List (ErrType × DashboardError) :=
  if List.any l (fun p => p.1 = t) then
    List.map (fun p => if p.1 = t then (t, e) else p) l
  else
    l ++ [(t, e)]

/-- `ErrorHandler.updateErrorStats(error)` (lines 298-302). -/
def updateErrorStats (st : DashState) (e : DashboardError) : DashState :=
  { st with
    errorCounts := bumpErrorCount st.errorCounts (e.type, e.severity)
    lastErrors := setLastError st.lastErrors e.type e }

/-- `ErrorHandler.handleError(error)` (lines 86-113): normalize, log,
dispatch by severity, then update statistics. -/
def handleError (st : DashState) (err : JsErr) (now : ℕ) : DashState :=
  let e := normalizeError err now
  let st1 := { st with errorLog := logError st.errorLog e }
  let st2 :=
    match e.severity with
    | Severity.low => handleLowSeverityError st1 e
    | Severity.medium => handleMediumSeverityError st1 e
    | Severity.high => handleHighSeverityError st1 e
    | Severity.critical => handleCriticalError st1 e
  updateErrorStats st2 e

/-! ## The refresh cycle (CompleteDashboard.updateDisplay, part_000)

`updateDisplay` fans out to `safeGetCPUInfo` / `safeGetMemoryInfo` /
`safeGetDiskInfo` / `safeGetNetworkInfo` via `Promise.all`, then runs
`clearExpiredCache` as maintenance.  The four collectors touch four
distinct cache keys and the handler only appends to logs, and in the
JS single-threaded loop each collector body runs without interleaved
cache mutations from the others, so `Promise.all` is modelled as the
sequential composition in source order.  The outcome of each source's
OS query is supplied as an environment value. -/

/-- The OS-query outcomes for one cycle (`systeminformation` calls). -/
structure SysEnv where
  cpuQ : Except String (CpuLoadRaw × CpuSpecRaw)
  memQ : Except String MemRaw
  diskQ : Except String (List DiskRaw)
  netQ : Except String (List NetRaw)

/-- `CompleteDashboard.safeGetCPUInfo()` (part_000 lines 329-340): on a
rejection from the collector, hand a SYSTEM/LOW `DashboardError` to the
handler and return `null`.  (`getCPUInfo` never rejects — its own catch
already returns a default — so the error branch is dead code, embedded
nonetheless.) -/
def safeGetCPUInfo (q : Except String (CpuLoadRaw × CpuSpecRaw))
    (st : DashState) (now : ℕ) : Option CPUReading × DashState :=
  match getCPUInfo q st.cache now with
  | Except.ok (r, c') => (some r, { st with cache := c' })
  | Except.error msg =>
    (none,
      handleError st
        (JsErr.dash
          { message := "CPU data collection failed", type := ErrType.system,
            severity := Severity.low, details := msg, timestamp := now }) now)

/-- `CompleteDashboard.safeGetMemoryInfo()` (lines 342-353). -/
def safeGetMemoryInfo (q : Except String MemRaw)
    (st : DashState) (now : ℕ) : Option MemoryReading × DashState :=
  match getMemoryInfo q st.cache now with
  | Except.ok (r, c') => (some r, { st with cache := c' })
  | Except.error msg =>
    (none,
      handleError st
        (JsErr.dash
          { message := "Memory data collection failed", type := ErrType.system,
            severity := Severity.low, details := msg, timestamp := now }) now)

/-- `CompleteDashboard.safeGetDiskInfo()` (lines 355-366): the fallback
value is the empty list, not `null`. -/
def safeGetDiskInfo (q : Except String (List DiskRaw))
    (st : DashState) (now : ℕ) : List DiskInfo × DashState :=
  match getDiskInfo q st.cache now with
  | Except.ok (r, c') => (r, { st with cache := c' })
  | Except.error msg =>
    ([],
      handleError st
        (JsErr.dash
          { message := "Disk data collection failed", type := ErrType.system,
            severity := Severity.low, details := msg, timestamp := now }) now)

/-- `CompleteDashboard.safeGetNetworkInfo()` (lines 368-379): the
fallback value is the empty list, not `null`. -/
def safeGetNetworkInfo (q : Except String (List NetRaw))
    (st : DashState) (now : ℕ) : List NetInfo × DashState :=
  match getNetworkInfo q st.cache now with
  | Except.ok (r, c') => (r, { st with cache := c' })
  | Except.error msg =>
    ([],
      handleError st
        (JsErr.dash
          { message := "Network data collection failed", type := ErrType.system,
            severity := Severity.low, details := msg, timestamp := now }) now)

/-- The four per-source values produced by one `updateDisplay` cycle
(`const [cpuInfo, memoryInfo, diskInfo, networkInfo] = await
Promise.all(dataPromises)`), with the JS types of the fallbacks:
`null` is possible for CPU/memory, while disk/network are lists. -/
structure CycleResults where
  cpu : Option CPUReading
  memory : Option MemoryReading
  disk : List DiskInfo
  network : List NetInfo
  deriving Repr, DecidableEq

/-- The data-collection and maintenance portion of
`CompleteDashboard.updateDisplay()` (part_000 lines 274-326): fan out
to the four safe getters, then `clearExpiredCache()`.  Widget/header
writes are sinks and are omitted. -/
def updateDisplayData (env : SysEnv) (st : DashState) (now : ℕ) :
    CycleResults × DashState :=
  let rc := safeGetCPUInfo env.cpuQ st now
  let rm := safeGetMemoryInfo env.memQ rc.2 now
  let rd := safeGetDiskInfo env.diskQ rm.2 now
  let rn := safeGetNetworkInfo env.netQ rd.2 now
  let stFinal := { rn.2 with cache := clearExpiredCache rn.2.cache now }
  ({ cpu := rc.1, memory := rm.1, disk := rd.1, network := rn.1 }, stFinal)

/-! ## Spec-side classification (for the C7 refinement) -/

/-- Modelled from the spec: §4.4's classification rules, written as the
spec phrases them — "in priority order: if already a typed failure,
keep its declared type/severity; else inspect cause —
permission/not-found OS errors ⇒ SYSTEM/HIGH; connectivity-class OS
errors ⇒ NETWORK/MEDIUM; malformed-data errors ⇒ DATA/MEDIUM; anything
else ⇒ SYSTEM/MEDIUM default".  Permission/not-found OS error codes are
`EACCES`/`ENOENT`, connectivity codes are `ENOTFOUND`/`ECONNREFUSED`,
and malformed data is a JS `SyntaxError`. -/
def specClassification : JsErr → ErrType × Severity
  | JsErr.dash e => (e.type, e.severity)
  | JsErr.plain _ _ code isSyntax =>
    if code ∈ [some "ENOENT", some "EACCES"] then
      (ErrType.system, Severity.high)
    else if code ∈ [some "ENOTFOUND", some "ECONNREFUSED"] then
      (ErrType.network, Severity.medium)
    else if isSyntax then
      (ErrType.data, Severity.medium)
    else
      (ErrType.system, Severity.medium)

/-! ## Performance statistics (CompleteDashboard.updatePerformanceStats) -/

/-- The two fields of `this.performanceStats` that the duration-average
claim touches. -/
structure PerfStats where
  totalUpdates : ℕ
  averageUpdateTime : ℕ
  deriving Repr, DecidableEq

/-- `CompleteDashboard.updatePerformanceStats(updateTime)` (part_000
lines 404-417): increment `totalUpdates`, fold the new duration into
`averageUpdateTime` and round.  The JS
`Math.round(totalTime / totalUpdates)` on the exactly-represented
integers involved equals `⌊totalTime / n + 1/2⌋`, i.e. the natural
division `(2 * totalTime + n) / (2 * n)`. -/
def updatePerformanceStats (s : PerfStats) (t : ℕ) : PerfStats :=
  let n := s.totalUpdates + 1
  let totalTime := s.averageUpdateTime * s.totalUpdates + t
  { totalUpdates := n, averageUpdateTime := (2 * totalTime + n) / (2 * n) }

/-! ## The update loop (CompleteDashboard.startUpdateLoop)

`startUpdateLoop` (part_000 lines 235-272) arms
`setInterval(async () => { if (this.isRunning) { ... await
this.updateDisplay() ... } }, interval)`.  The event-loop behaviour is
modelled by two events: a timer tick firing (the callback runs, and its
guard is precisely `this.isRunning`), and an in-flight cycle's async
body completing.  `activeCycles` counts callback bodies that have begun
and not yet completed; between a tick accepted while `isRunning` and
its completion the cycle is in progress, and nothing in the callback
consults any cycle-in-progress flag. -/

/-- Event-loop state for the interval callback. -/
structure LoopState where
  isRunning : Bool
  activeCycles : ℕ
  deriving Repr, DecidableEq

/-- A timer tick firing, or an in-flight cycle body completing. -/
inductive LoopEvent : Type where
  | tickFire
  | cycleEnd
  deriving Repr, DecidableEq

/-- One event-loop step: on `tickFire` the callback body starts iff
`this.isRunning` (part_000 line 242) — that is the only guard; on
`cycleEnd` an in-flight body finishes. -/
def loopStep (s : LoopState) : LoopEvent → LoopState
  | LoopEvent.tickFire =>
    if s.isRunning then { s with activeCycles := s.activeCycles + 1 } else s
  | LoopEvent.cycleEnd => { s with activeCycles := s.activeCycles - 1 }

/-- Run the event loop over a sequence of events. -/
def runLoop (s : LoopState) (evs : List LoopEvent) : LoopState :=
  List.foldl loopStep s evs

/-- Deleting a key removes it: `Map.get` after `Map.delete` misses. -/
theorem CacheMap.get?_del_self {V : Type} (c : CacheMap V) (key : String) :
    (c.del key).get? key = none := by
  unfold CacheMap.del CacheMap.get?
  have h : List.find? (fun p => p.1 == key) (List.filter (fun p => !(p.1 == key)) c)
      = none := by
    rw [List.find?_eq_none]
    intro p hp
    have h2 := (List.mem_filter.1 hp).2
    simpa using h2
  rw [h]
  rfl

/-- **C1** (TTL invariant, Scenario A).  For every cache key holding an
entry, the cached read returns absent whenever `now - capturedAt >= ttl`
(ttl = `cacheTimeout` = 2000 ms), evicting the expired entry as a side
effect of the read, with no sweep needed; and concretely, after
`put("cpu", r1)` at t = 0, `get("cpu")` at t = 1999 returns `r1` and at
t = 2001 returns absent. -/
theorem claim_C1 :
    (∀ (V : Type) (c : CacheMap V) (key : String) (now : ℕ) (e : CacheEntry V),
      c.get? key = some e → cacheTimeout ≤ now - e.timestamp →
      (cacheRead c key now).1 = none ∧
      ((cacheRead c key now).2).get? key = none) ∧
    (∀ (V : Type) (r1 : V),
      (cacheRead [("cpu", ⟨r1, 0⟩)] "cpu" 1999).1 = some r1 ∧
      (cacheRead [("cpu", ⟨r1, 0⟩)] "cpu" 2001).1 = none) := by
  constructor
  · intro V c key now e he hexp
    have hvalid : ¬ (now - e.timestamp < cacheTimeout) := not_lt.2 hexp
    unfold cacheRead isInCache
    rw [he]
    simp only [if_neg hvalid, true_and]
    exact CacheMap.get?_del_self c key
  · intro V r1
    constructor
    · rfl
    · rfl

/-- Witness for C1: the general statement applied to a one-entry
concrete cache at t = 2001 (entry captured at t = 0, age 2001 ≥ 2000). -/
theorem claim_C1_witness :
    (cacheRead [("cpu", ⟨(7 : ℕ), 0⟩)] "cpu" 2001).1 = none ∧
    ((cacheRead [("cpu", ⟨(7 : ℕ), 0⟩)] "cpu" 2001).2).get? "cpu" = none :=
  claim_C1.1 ℕ [("cpu", ⟨7, 0⟩)] "cpu" 2001 ⟨7, 0⟩ (by decide) (by decide)

/-- Reducing the update frequency never touches `loggingEnabled`. -/
theorem reduce_loggingEnabled (st : DashState) :
    (temporarilyReduceUpdateFrequency st).loggingEnabled = st.loggingEnabled := by
  unfold temporarilyReduceUpdateFrequency
  cases st.updateInterval <;> rfl

/-- Reducing the update frequency never touches `degradedMode`. -/
theorem reduce_degradedMode (st : DashState) :
    (temporarilyReduceUpdateFrequency st).degradedMode = st.degradedMode := by
  unfold temporarilyReduceUpdateFrequency
  cases st.updateInterval <;> rfl

/-- Reducing the update frequency never touches the cache. -/
theorem reduce_cache (st : DashState) :
    (temporarilyReduceUpdateFrequency st).cache = st.cache := by
  unfold temporarilyReduceUpdateFrequency
  cases st.updateInterval <;> rfl

/-- With a timer armed, reducing the update frequency re-arms at 4000 ms. -/
theorem reduce_interval_some (st : DashState) (p : ℕ)
    (h : st.updateInterval = some p) :
    (temporarilyReduceUpdateFrequency st).updateInterval = some 4000 := by
  unfold temporarilyReduceUpdateFrequency
  rw [h]

/-- **C10** (implicit frame effect).  Handling a HIGH-severity error, in
addition to entering degraded mode, also sets the dashboard's
`loggingEnabled` flag to `false`, for every prior dashboard state. -/
theorem claim_C10 (st : DashState) (msg det : String) (ty : ErrType) (ts now : ℕ) :
    (handleError st (JsErr.dash ⟨msg, ty, Severity.high, det, ts⟩) now).loggingEnabled
      = false ∧
    (handleError st (JsErr.dash ⟨msg, ty, Severity.high, det, ts⟩) now).degradedMode
      = true := by
  unfold handleError normalizeError updateErrorStats handleHighSeverityError
    enterDegradedMode
  simp [reduce_loggingEnabled, reduce_degradedMode]

/-- **C8** (Scenario C).  Handling a MEDIUM-severity DATA error triggers
a cache clear as its recovery action: for every prior cache state the
cache size immediately after handling the error is 0. -/
theorem claim_C8 (st : DashState) (msg det : String) (ts now : ℕ) :
    (getCacheStats
      (handleError st (JsErr.dash ⟨msg, ErrType.data, Severity.medium, det, ts⟩) now).cache).size
      = 0 ∧
    (handleError st (JsErr.dash ⟨msg, ErrType.data, Severity.medium, det, ts⟩) now).cache
      = [] := by
  unfold handleError normalizeError updateErrorStats handleMediumSeverityError
    attemptRecovery recoverFromDataError
  simp [getCacheStats, CacheMap.size]

/-- **C3** (escalation ordering, idempotent doubling).  From a
non-degraded state with the timer armed at the configured 2000 ms, a
HIGH-severity error flips `degradedMode` to `true` and doubles the
scheduler cadence to 4000 ms; a second HIGH error while already
degraded leaves the cadence at the same single-doubled 4000 ms value
rather than compounding it. -/
theorem claim_C3 (st : DashState) (m1 m2 d1 d2 : String) (t1 t2 : ErrType)
    (ts1 ts2 n1 n2 : ℕ)
    (_hdeg : st.degradedMode = false)
    (hint : st.updateInterval = some 2000) :
    (handleError st (JsErr.dash ⟨m1, t1, Severity.high, d1, ts1⟩) n1).degradedMode
      = true ∧
    (handleError st (JsErr.dash ⟨m1, t1, Severity.high, d1, ts1⟩) n1).updateInterval
      = some (2 * 2000) ∧
    (handleError
      (handleError st (JsErr.dash ⟨m1, t1, Severity.high, d1, ts1⟩) n1)
      (JsErr.dash ⟨m2, t2, Severity.high, d2, ts2⟩) n2).degradedMode = true ∧
    (handleError
      (handleError st (JsErr.dash ⟨m1, t1, Severity.high, d1, ts1⟩) n1)
      (JsErr.dash ⟨m2, t2, Severity.high, d2, ts2⟩) n2).updateInterval
      = some (2 * 2000) := by
  unfold handleError normalizeError updateErrorStats handleHighSeverityError
    enterDegradedMode temporarilyReduceUpdateFrequency
  simp [hint]

/-- Witness for C3: the concrete freshly-started dashboard state
(timer armed at 2000 ms, not degraded) hit by two HIGH SYSTEM errors. -/
theorem claim_C3_witness :
    (handleError
        { degradedMode := false, loggingEnabled := false, isRunning := true,
          updateInterval := some 2000, cache := [], errorLog := [],
          errorCounts := [], lastErrors := [] }
        (JsErr.dash ⟨"screen error", ErrType.system, Severity.high, "", 5⟩)
        5).updateInterval = some (2 * 2000) ∧
    (handleError
      (handleError
        { degradedMode := false, loggingEnabled := false, isRunning := true,
          updateInterval := some 2000, cache := [], errorLog := [],
          errorCounts := [], lastErrors := [] }
        (JsErr.dash ⟨"screen error", ErrType.system, Severity.high, "", 5⟩)
        5)
      (JsErr.dash ⟨"ui error", ErrType.ui, Severity.high, "", 9⟩)
      9).updateInterval = some (2 * 2000) := by
  have h := claim_C3
    { degradedMode := false, loggingEnabled := false, isRunning := true,
      updateInterval := some 2000, cache := [], errorLog := [],
      errorCounts := [], lastErrors := [] }
    "screen error" "ui error" "" "" ErrType.system ErrType.ui 5 9 5 9
    (by decide) (by decide)
  exact ⟨h.2.1, h.2.2.2⟩

/-- **C7** (classification rules).  The handler's `normalizeError`
agrees with the spec's priority-ordered classification for every
handled error: an already-typed failure keeps its declared type and
severity; otherwise permission/not-found OS errors classify as
SYSTEM/HIGH, connectivity-class OS errors as NETWORK/MEDIUM,
malformed-data errors as DATA/MEDIUM, and anything else as the
SYSTEM/MEDIUM default. -/
theorem claim_C7 (err : JsErr) (now : ℕ) :
    ((normalizeError err now).type, (normalizeError err now).severity)
      = specClassification err := by
  cases err with
  | dash e => rfl
  | plain name msg code isSyntax =>
    simp only [normalizeError, specClassification, List.mem_cons,
      List.mem_singleton, List.not_mem_nil, or_false]

/-- Closed form of the bounded log: folding `logError` over any error
sequence keeps exactly the records of the last `maxLogSize` errors. -/
theorem logError_foldl_eq (es : List DashboardError) :
    List.foldl logError [] es
      = (List.map toErrorRecord es).drop (es.length - maxLogSize) := by
  have hML : maxLogSize = 100 := rfl
  induction es using List.reverseRecOn with
  | nil => rfl
  | append_singleton es e ih =>
    rw [List.foldl_append]
    simp only [List.foldl_cons, List.foldl_nil]
    rw [ih]
    simp only [logError, List.map_append, List.map_cons, List.map_nil]
    split_ifs with hc
    · rw [List.length_append, List.length_drop, List.length_map] at hc
      have hM : maxLogSize ≤ es.length := by
        simp only [List.length_singleton] at hc
        omega
      have h1 : 1 ≤ (List.drop (es.length - maxLogSize)
          (List.map toErrorRecord es)).length := by
        rw [List.length_drop, List.length_map]
        omega
      rw [List.drop_append_of_le_length h1, List.drop_drop]
      have h2 : (es ++ [e]).length - maxLogSize
          ≤ (List.map toErrorRecord es).length := by
        rw [List.length_map, List.length_append]
        simp only [List.length_singleton]
        omega
      rw [List.drop_append_of_le_length h2]
      have hidx : es.length - maxLogSize + 1
          = (es ++ [e]).length - maxLogSize := by
        rw [List.length_append]
        simp only [List.length_singleton]
        omega
      rw [hidx]
    · rw [List.length_append, List.length_drop, List.length_map] at hc
      have hM : es.length < maxLogSize := by
        simp only [List.length_singleton] at hc
        omega
      have e1 : es.length - maxLogSize = 0 := by omega
      have e2 : (es ++ [e]).length - maxLogSize = 0 := by
        rw [List.length_append]
        simp only [List.length_singleton]
        omega
      rw [e1, e2, List.drop_zero, List.drop_zero]

/-- **C5** (ring-log bound).  For every k > 0, after inserting
`maxLogSize + k` errors into the error log the log contains exactly
`maxLogSize` entries, and those are the records of the most recently
inserted errors in insertion order: the oldest `k` were dropped first. -/
theorem claim_C5 (es : List DashboardError) (k : ℕ) (_hk : 0 < k)
    (hlen : es.length = maxLogSize + k) :
    List.foldl logError [] es = (List.map toErrorRecord es).drop k ∧
    (List.foldl logError [] es).length = maxLogSize := by
  have h := logError_foldl_eq es
  constructor
  · rw [h, hlen]
    congr 1
    omega
  · rw [h, List.length_drop, List.length_map, hlen]
    omega

/-- Witness for C5: 101 identical errors against the capacity-100 log
leave exactly the records of the last 100. -/
theorem claim_C5_witness :
    List.foldl logError []
        (List.replicate 101 ⟨"x", ErrType.system, Severity.low, "", 0⟩)
      = (List.map toErrorRecord
          (List.replicate 101 ⟨"x", ErrType.system, Severity.low, "", 0⟩)).drop 1 ∧
    (List.foldl logError []
        (List.replicate 101 ⟨"x", ErrType.system, Severity.low, "", 0⟩)).length
      = maxLogSize :=
  claim_C5 (List.replicate 101 ⟨"x", ErrType.system, Severity.low, "", 0⟩) 1
    (by decide) (by simp [maxLogSize])

/-- Natural-number rounding-division `(2a + n) / (2n)` is the
round-half-up of the exact rational `a / n`. -/
theorem natDiv_round_eq (a n : ℕ) (hn : 0 < n) :
    (((2 * a + n) / (2 * n) : ℕ) : ℚ) = round ((a : ℚ) / (n : ℚ)) := by
  have h1 : (a : ℚ) / (n : ℚ) + 1 / 2
      = ((2 * a + n : ℕ) : ℚ) / ((2 * n : ℕ) : ℚ) := by
    have hq : (0 : ℚ) < (n : ℚ) := by exact_mod_cast hn
    push_cast
    field_simp
    ring
  rw [round_eq, h1]
  have h2 : (0 : ℚ) ≤ ((2 * a + n : ℕ) : ℚ) / ((2 * n : ℕ) : ℚ) := by positivity
  rw [← Int.natCast_floor_eq_floor h2, Nat.floor_div_eq_div]
  norm_cast

/-- **C6 (amended)** (cadence average).  The stored per-cycle duration
average is maintained as the *rounded* recurrence
`avg_n = round((avg_(n-1) * (n-1) + t_n) / n)`, the rounded value being
fed forward; on the durations 10 ms, 20 ms, 30 ms the stored averages
are exactly 10, 15 and 20. -/
theorem claim_C6 :
    (∀ (s : PerfStats) (t : ℕ),
      ((updatePerformanceStats s t).averageUpdateTime : ℚ)
        = round (((s.averageUpdateTime * s.totalUpdates + t : ℕ) : ℚ)
            / ((s.totalUpdates + 1 : ℕ) : ℚ))) ∧
    (List.foldl updatePerformanceStats ⟨0, 0⟩ [10]).averageUpdateTime = 10 ∧
    (List.foldl updatePerformanceStats ⟨0, 0⟩ [10, 20]).averageUpdateTime = 15 ∧
    (List.foldl updatePerformanceStats ⟨0, 0⟩ [10, 20, 30]).averageUpdateTime = 20 := by
  refine ⟨fun s t => ?_, by decide, by decide, by decide⟩
  exact natDiv_round_eq (s.averageUpdateTime * s.totalUpdates + t)
    (s.totalUpdates + 1) (Nat.succ_pos _)

/-- **C6 counterexample.**  The claimed exact recurrence
`avg_n = (avg_(n-1) * (n-1) + t_n) / n` fails on the duration sequence
10 ms, 11 ms: after the first cycle the stored average is 10, so the
claim demands `avg_2 = (10 * 1 + 11) / 2 = 10.5`, but the code stores
the rounded value 11. -/
theorem claim_C6_counterexample :
    (List.foldl updatePerformanceStats ⟨0, 0⟩ [10]).averageUpdateTime = 10 ∧
    ((List.foldl updatePerformanceStats ⟨0, 0⟩ [10, 11]).averageUpdateTime : ℚ)
      ≠ (10 * (2 - 1) + 11) / 2 := by
  refine ⟨by decide, ?_⟩
  norm_num [updatePerformanceStats]

/-- No event-loop event changes `isRunning` (the flag is only mutated by
startup/shutdown, outside the interval callback). -/
theorem loopStep_isRunning (s : LoopState) (e : LoopEvent) :
    (loopStep s e).isRunning = s.isRunning := by
  cases e with
  | tickFire =>
    by_cases h : s.isRunning = true <;> simp [loopStep, h]
  | cycleEnd => rfl

/-- **C9 (amended)** (tick guard).  The interval callback's only guard
is the application-level `isRunning` flag: while the dashboard is
running, every firing tick starts a cycle body — even when a previous
cycle is still in progress, so cycles can overlap — and once
`isRunning` is false no tick ever starts a new cycle (over any event
sequence, the number of in-flight cycles never grows). -/
theorem claim_C9 :
    (∀ n : ℕ,
      loopStep { isRunning := true, activeCycles := n } LoopEvent.tickFire
        = { isRunning := true, activeCycles := n + 1 }) ∧
    (∀ n : ℕ,
      loopStep { isRunning := false, activeCycles := n } LoopEvent.tickFire
        = { isRunning := false, activeCycles := n }) ∧
    (∀ (s : LoopState) (evs : List LoopEvent),
      s.isRunning = false → (runLoop s evs).activeCycles ≤ s.activeCycles) := by
  refine ⟨fun n => rfl, fun n => rfl, fun s evs => ?_⟩
  induction evs generalizing s with
  | nil => intro _; exact le_refl _
  | cons e evs ih =>
    intro hrun
    have hstep : (loopStep s e).activeCycles ≤ s.activeCycles := by
      cases e with
      | tickFire => simp [loopStep, hrun]
      | cycleEnd => exact Nat.sub_le _ _
    have hrun' : (loopStep s e).isRunning = false := by
      rw [loopStep_isRunning, hrun]
    exact le_trans (ih (loopStep s e) hrun') hstep

/-- Witness for C9 (amended): a stopped dashboard with one in-flight
cycle skips further ticks, so in-flight cycles never exceed one. -/
theorem claim_C9_witness :
    (runLoop { isRunning := false, activeCycles := 1 }
        [LoopEvent.tickFire, LoopEvent.cycleEnd, LoopEvent.tickFire]).activeCycles
      ≤ 1 :=
  claim_C9.2.2 { isRunning := false, activeCycles := 1 }
    [LoopEvent.tickFire, LoopEvent.cycleEnd, LoopEvent.tickFire] rfl

/-- **C9 counterexample.**  Two timer ticks firing while the dashboard
is running and no cycle body has completed: the second tick is *not*
skipped (the guard checks only `isRunning`), leaving two refresh cycles
in progress at once — the claimed "at most one cycle in progress"
invariant is violated. -/
theorem claim_C9_counterexample :
    runLoop { isRunning := true, activeCycles := 0 }
        [LoopEvent.tickFire, LoopEvent.tickFire]
      = { isRunning := true, activeCycles := 2 } ∧
    ¬ ((runLoop { isRunning := true, activeCycles := 0 }
        [LoopEvent.tickFire, LoopEvent.tickFire]).activeCycles ≤ 1) := by
  exact ⟨rfl, by decide⟩

/-- **C4 (amended)** (collector error contract).  The collectors never
raise at all: every branch resolves successfully.  An OS query failure
is caught inside the collector, which logs it and returns the safe
default reading (zeroed CPU values, empty disk list); absence of
hardware (no disks reported) flows through the normal path and yields
an empty reading, not an error. -/
theorem claim_C4 :
    (∀ (q : Except String (CpuLoadRaw × CpuSpecRaw)) (c : CacheMap MetricData)
        (now : ℕ), ∃ out, getCPUInfo q c now = Except.ok out) ∧
    (∀ (q : Except String MemRaw) (c : CacheMap MetricData) (now : ℕ),
      ∃ out, getMemoryInfo q c now = Except.ok out) ∧
    (∀ (q : Except String (List DiskRaw)) (c : CacheMap MetricData) (now : ℕ),
      ∃ out, getDiskInfo q c now = Except.ok out) ∧
    (∀ (q : Except String (List NetRaw)) (c : CacheMap MetricData) (now : ℕ),
      ∃ out, getNetworkInfo q c now = Except.ok out) ∧
    (∀ (msg : String) (now : ℕ),
      getCPUInfo (Except.error msg) [] now = Except.ok (defaultCPUReading, [])) ∧
    (∀ (msg : String) (now : ℕ),
      getDiskInfo (Except.error msg) [] now = Except.ok ([], [])) ∧
    (∀ now : ℕ,
      getDiskInfo (Except.ok []) [] now
        = Except.ok ([], setCache [] "disk" (MetricData.disk []) now)) := by
  refine ⟨?_, ?_, ?_, ?_, fun msg now => rfl, fun msg now => rfl, fun now => rfl⟩
  · intro q c now
    unfold getCPUInfo
    rcases h : cacheRead c "cpu" now with ⟨o, c'⟩
    cases o with
    | some d => exact ⟨_, rfl⟩
    | none => cases q with
      | ok raw => exact ⟨_, rfl⟩
      | error msg => exact ⟨_, rfl⟩
  · intro q c now
    unfold getMemoryInfo
    rcases h : cacheRead c "memory" now with ⟨o, c'⟩
    cases o with
    | some d => exact ⟨_, rfl⟩
    | none => cases q with
      | ok raw => exact ⟨_, rfl⟩
      | error msg => exact ⟨_, rfl⟩
  · intro q c now
    unfold getDiskInfo
    rcases h : cacheRead c "disk" now with ⟨o, c'⟩
    cases o with
    | some d => exact ⟨_, rfl⟩
    | none => cases q with
      | ok raw => exact ⟨_, rfl⟩
      | error msg => exact ⟨_, rfl⟩
  · intro q c now
    unfold getNetworkInfo
    rcases h : cacheRead c "network" now with ⟨o, c'⟩
    cases o with
    | some d => exact ⟨_, rfl⟩
    | none => cases q with
      | ok raw => exact ⟨_, rfl⟩
      | error msg => exact ⟨_, rfl⟩

/-- **C4 counterexample.**  A failing CPU OS query (e.g. a permission
error) does *not* make the collector raise a `CollectionError`: the
collector catches it and resolves successfully with the zeroed default
reading, contradicting "raises ... exactly when the underlying OS query
fails". -/
theorem claim_C4_counterexample :
    ¬ (∃ e, getCPUInfo (Except.error "EPERM: operation not permitted")
        ([] : CacheMap MetricData) 0 = Except.error e) ∧
    getCPUInfo (Except.error "EPERM: operation not permitted")
        ([] : CacheMap MetricData) 0
      = Except.ok (defaultCPUReading, []) := by
  constructor
  · rintro ⟨e, h⟩
    rw [show getCPUInfo (Except.error "EPERM: operation not permitted")
        ([] : CacheMap MetricData) 0 = Except.ok (defaultCPUReading, []) from rfl] at h
    exact Except.noConfusion h
  · rfl

/-- **C2 (amended)** (failure isolation).  When the Disk OS query fails
in a cycle while CPU/Memory/Network succeed (starting from an empty
cache), the cycle still produces all four per-source results: the Disk
result is the empty-list safe default (not `null`), the other three
carry their normal readings; no error object is attached to a result or
handed to the error handler (the handler's log and statistics are
untouched); and the failure evicts nothing — the three fresh cache
entries survive the end-of-cycle sweep, and a valid prior Disk cache
entry would be served and retained unchanged. -/
theorem claim_C2 (load : CpuLoadRaw) (info : CpuSpecRaw) (m : MemRaw)
    (nets : List NetRaw) (msg : String) (dm le ir : Bool) (ui : Option ℕ)
    (log : List ErrorRecord) (counts : List ((ErrType × Severity) × ℕ))
    (lasts : List (ErrType × DashboardError)) (now : ℕ) (d : List DiskInfo) :
    (updateDisplayData
        ⟨Except.ok (load, info), Except.ok m, Except.error msg, Except.ok nets⟩
        ⟨dm, le, ir, ui, [], log, counts, lasts⟩ now).1
      = { cpu := some (cpuTransform load info), memory := some (memTransform m),
          disk := [], network := netTransform nets } ∧
    (updateDisplayData
        ⟨Except.ok (load, info), Except.ok m, Except.error msg, Except.ok nets⟩
        ⟨dm, le, ir, ui, [], log, counts, lasts⟩ now).2
      = { degradedMode := dm, loggingEnabled := le, isRunning := ir,
          updateInterval := ui,
          cache := [("cpu", ⟨MetricData.cpu (cpuTransform load info), now⟩),
                    ("memory", ⟨MetricData.memory (memTransform m), now⟩),
                    ("network", ⟨MetricData.network (netTransform nets), now⟩)],
          errorLog := log, errorCounts := counts, lastErrors := lasts } ∧
    (updateDisplayData
        ⟨Except.ok (load, info), Except.ok m, Except.error msg, Except.ok nets⟩
        ⟨dm, le, ir, ui, [("disk", ⟨MetricData.disk d, now⟩)], log, counts, lasts⟩
        now).1.disk = d ∧
    ((updateDisplayData
        ⟨Except.ok (load, info), Except.ok m, Except.error msg, Except.ok nets⟩
        ⟨dm, le, ir, ui, [("disk", ⟨MetricData.disk d, now⟩)], log, counts, lasts⟩
        now).2.cache).get? "disk" = some ⟨MetricData.disk d, now⟩ := by
  refine ⟨?_, ?_, ?_, ?_⟩ <;>
    simp [updateDisplayData, safeGetCPUInfo, safeGetMemoryInfo, safeGetDiskInfo,
      safeGetNetworkInfo, getCPUInfo, getMemoryInfo, getDiskInfo, getNetworkInfo,
      cacheRead, isInCache, CacheMap.get?, CacheMap.set, CacheMap.del, setCache,
      clearExpiredCache, cacheTimeout, List.find?, List.filter, MetricData.asCpu,
      MetricData.asMemory, MetricData.asDisk, MetricData.asNetwork,
      Nat.sub_self]

/-- **C2 counterexample.**  A concrete cycle in which the Disk OS query
fails with an I/O error while the other three sources succeed: the Disk
per-source value is the empty list — a substituted empty reading, not a
`null` reading — and *no* non-null error accompanies the results: the
error handler receives nothing (the error log stays empty), refuting
"the failed source's result has reading=null and a non-null error". -/
theorem claim_C2_counterexample :
    (updateDisplayData
        ⟨Except.ok (⟨50, [50]⟩, ⟨"cpu0", 2⟩), Except.ok ⟨0, 0, 0⟩,
         Except.error "EIO: i/o error", Except.ok []⟩
        ⟨false, false, true, some 2000, [], [], [], []⟩ 0).1.disk = [] ∧
    ¬ ((updateDisplayData
        ⟨Except.ok (⟨50, [50]⟩, ⟨"cpu0", 2⟩), Except.ok ⟨0, 0, 0⟩,
         Except.error "EIO: i/o error", Except.ok []⟩
        ⟨false, false, true, some 2000, [], [], [], []⟩ 0).2.errorLog ≠ []) := by
  constructor
  · decide
  · intro h
    exact h (by decide)
